import Mathlib

/-
Shallow embedding of the per-window X11 presentation engine of the
NVIDIA egl-x11 platform library (src/x11/x11-window.c and
src/x11/x11-timeline.c), together with proofs about its behaviour.

Conventions used throughout:
* C unsigned integers are modelled as `Nat` with explicit reductions
  modulo `M32` (uint32_t) or `M64` (uint64_t) at the points where the C
  arithmetic can wrap.
* Calls into the kernel, the X server or the driver that can fail are
  modelled by oracle booleans that select the success or the failure
  branch of the C code; data produced by such calls (fresh XIDs, fresh
  syncobj handles, released buffers) is supplied by oracle parameters.
* Pointers to `X11ColorBuffer` structs are modelled by numeric buffer
  ids; the intrusive glvnd lists become Lean lists, with
  `glvnd_list_add` prepending and `glvnd_list_append` appending.
-/

namespace EglX11

/-- Modulus of uint32_t arithmetic (serial numbers, pending counts). -/
def M32 : Nat := 4294967296

/-- Modulus of uint64_t arithmetic (timeline points, MSC values). -/
def M64 : Nat := 18446744073709551616

/-- Wrap-aware unsigned 32-bit subtraction `a - b` as computed on
uint32_t operands in C (arguments are expected to be < `M32`). -/
def wsub32 (a b : Nat) : Nat := (a + (M32 - b % M32)) % M32

/-- Conversion of a C `int` to `uint32_t` (two's complement reduction). -/
def intToU32 (i : Int) : Nat := (i % (M32 : Int)).toNat

/-- `X11Timeline` from x11-timeline.h: a DRM timeline syncobj with its
local kernel handle, its server-side XID, and the last-used point. -/
structure X11Timeline where
  handle : Nat
  xid : Nat
  point : Nat
  deriving Repr, DecidableEq

/-- `eplX11TimelineAttachSyncFD` from x11-timeline.c: creates a temporary
binary syncobj, imports the sync FD into it, and transfers it to
`timeline->point + 1`; only then increments the timeline's point.  The
three oracle booleans are the outcomes of the `SyncobjCreate`,
`SyncobjImportSyncFile` and `SyncobjTransfer` ioctls.  Returns the
EGLBoolean result together with the timeline state after the call. -/
def eplX11TimelineAttachSyncFD (t : X11Timeline)
    (createOk importOk transferOk : Bool) : Bool × X11Timeline :=
  if !createOk then (false, t)
  else if !importOk then (false, t)
  else if !transferOk then (false, t)
  else (true, { t with point := (t.point + 1) % M64 })

/-- `eplX11TimelinePointToSyncFD` from x11-timeline.c: creates a temporary
syncobj, transfers the timeline's current point into it, and exports a
sync file from it; the temporary syncobj is destroyed in every path.
The oracles are the outcomes of the `SyncobjCreate`, `SyncobjTransfer`
and `SyncobjExportSyncFile` ioctls, and `exportedFd` is the descriptor
produced by a successful export.  Returns the C `int` result (note that
the `SyncobjCreate` failure path returns `EGL_FALSE`, i.e. 0, while the
other failure paths return the initial value -1 of `syncfd`), paired
with the timeline state after the call. -/
def eplX11TimelinePointToSyncFD (t : X11Timeline)
    (createOk transferOk exportOk : Bool) (exportedFd : Nat) : Int × X11Timeline :=
  if !createOk then (0, t)
  else if !transferOk then (-1, t)
  else if !exportOk then (-1, t)
  else ((exportedFd : Int), t)

/-- The effect of the explicit-sync branch of `SendPresentPixmap` on the
presented buffer's timeline (x11-window.c lines 1060-1071): the
PresentPixmapSynced request carries acquire point `timeline.point` and
release point `timeline.point + 1` (a uint64 computation), and then the
point is incremented.  Returns `((acquire, release), timeline')`. -/
def presentTimelineStep (t : X11Timeline) : (Nat × Nat) × X11Timeline :=
  ((t.point, (t.point + 1) % M64), { t with point := (t.point + 1) % M64 })

/-- An operation on one buffer's timeline: either setting up the next
acquire point from a rendering fence (`eplX11TimelineAttachSyncFD`,
with the outcomes of its three ioctls), or sending a present request
for the buffer (the explicit-sync branch of `SendPresentPixmap`). -/
inductive TimelineOp where
  | attach (createOk importOk transferOk : Bool)
  | present
  deriving Repr, DecidableEq

/-- Whether a timeline operation succeeds: an attach succeeds when all of
its ioctls succeed; a present request is send-only and always counts
as successful. -/
def TimelineOp.succeeds : TimelineOp → Bool
  | .attach createOk importOk transferOk => createOk && importOk && transferOk
  | .present => true

/-- The state of the timeline after one operation. -/
def timelineOpStep (t : X11Timeline) : TimelineOp → X11Timeline
  | .attach createOk importOk transferOk =>
      (eplX11TimelineAttachSyncFD t createOk importOk transferOk).2
  | .present => (presentTimelineStep t).2

/-- The state of the timeline after a sequence of operations. -/
def timelineRun (t : X11Timeline) (ops : List TimelineOp) : X11Timeline :=
  ops.foldl timelineOpStep t

theorem timelineOpStep_handle (t : X11Timeline) (op : TimelineOp) :
    (timelineOpStep t op).handle = t.handle := by
  cases op with
  | attach c i tr =>
    simp only [timelineOpStep, eplX11TimelineAttachSyncFD]
    cases c <;> cases i <;> cases tr <;> rfl
  | present => rfl

theorem timelineOpStep_point (t : X11Timeline) (op : TimelineOp) :
    (timelineOpStep t op).point =
      if op.succeeds then (t.point + 1) % M64 else t.point := by
  cases op with
  | attach c i tr =>
    simp only [timelineOpStep, eplX11TimelineAttachSyncFD, TimelineOp.succeeds]
    cases c <;> cases i <;> cases tr <;> rfl
  | present => rfl

theorem timelineRun_point (t : X11Timeline) (ops : List TimelineOp)
    (h : t.point + ops.length < M64) :
    (timelineRun t ops).point =
      t.point + (ops.filter (fun op => op.succeeds)).length := by
  induction ops generalizing t with
  | nil => rfl
  | cons op rest ih =>
    have hstep := timelineOpStep_point t op
    have hlen : t.point + 1 < M64 := by
      have := h; simp only [List.length_cons] at this; omega
    by_cases hs : op.succeeds
    · have hpt : (timelineOpStep t op).point = t.point + 1 := by
        rw [hstep, if_pos hs, Nat.mod_eq_of_lt hlen]
      have hrest : (timelineOpStep t op).point + rest.length < M64 := by
        rw [hpt]; simp only [List.length_cons] at h; omega
      have := ih (timelineOpStep t op) hrest
      simp only [timelineRun, List.foldl_cons] at *
      rw [this, hpt, List.filter_cons, if_pos (by simpa using hs)]
      simp only [List.length_cons]; omega
    · have hpt : (timelineOpStep t op).point = t.point := by
        rw [hstep, if_neg hs]
      have hrest : (timelineOpStep t op).point + rest.length < M64 := by
        rw [hpt]; simp only [List.length_cons] at h; omega
      have := ih (timelineOpStep t op) hrest
      simp only [timelineRun, List.foldl_cons] at *
      rw [this, hpt, List.filter_cons, if_neg (by simpa using hs)]

/-- C3: across any interleaving of attach-sync-FD and present operations
on one buffer's timeline (with fewer operations than would wrap the
64-bit counter), the point counter increases by exactly one on every
successful operation and is unchanged by a failed one — hence it is
strictly increasing across successful operations and never decreases —
and every present request carries acquire point equal to the timeline's
current point and release point equal to acquire + 1, after which the
counter equals the release point. -/
theorem timeline_point_monotonic (t : X11Timeline) (ops : List TimelineOp)
    (h : t.point + ops.length < M64) :
    (timelineRun t ops).point
        = t.point + (ops.filter (fun op => op.succeeds)).length ∧
    (∀ u : X11Timeline, u.point + 1 < M64 →
      ∀ op : TimelineOp,
        (timelineOpStep u op).point
          = (if op.succeeds then u.point + 1 else u.point)) ∧
    (∀ u : X11Timeline, u.point + 1 < M64 →
      (presentTimelineStep u).1.1 = u.point ∧
      (presentTimelineStep u).1.2 = u.point + 1 ∧
      (presentTimelineStep u).2.point = (presentTimelineStep u).1.2) := by
  refine ⟨timelineRun_point t ops h, ?_, ?_⟩
  · intro u hu op
    rw [timelineOpStep_point]
    by_cases hs : op.succeeds
    · rw [if_pos hs, if_pos hs, Nat.mod_eq_of_lt hu]
    · rw [if_neg hs, if_neg hs]
  · intro u hu
    refine ⟨rfl, ?_, rfl⟩
    simp only [presentTimelineStep]
    exact Nat.mod_eq_of_lt hu

/-- Witness for C3 at a concrete trace: two successful attaches, a failed
attach, and two presents advance the point from 10 to 14. -/
theorem timeline_point_monotonic_witness :
    (timelineRun { handle := 3, xid := 9, point := 10 }
        [.attach true true true, .present, .attach true false true,
         .present, .attach true true true]).point = 14 := by
  have h := timeline_point_monotonic { handle := 3, xid := 9, point := 10 }
      [.attach true true true, .present, .attach true false true,
       .present, .attach true true true] (by decide)
  rw [h.1]; rfl

/-- C4: `eplX11TimelineAttachSyncFD` is atomic with respect to the
timeline: if any of its three kernel steps fails it returns failure and
leaves the timeline unchanged, and if it returns success the point
counter has been incremented by exactly one (the handle and XID are
untouched in every case). -/
theorem attach_syncfd_atomic (t : X11Timeline) (createOk importOk transferOk : Bool)
    (h : t.point + 1 < M64) :
    ((eplX11TimelineAttachSyncFD t createOk importOk transferOk).1 = false →
      (eplX11TimelineAttachSyncFD t createOk importOk transferOk).2 = t) ∧
    ((eplX11TimelineAttachSyncFD t createOk importOk transferOk).1 = true →
      (eplX11TimelineAttachSyncFD t createOk importOk transferOk).2.point = t.point + 1 ∧
      (eplX11TimelineAttachSyncFD t createOk importOk transferOk).2.handle = t.handle ∧
      (eplX11TimelineAttachSyncFD t createOk importOk transferOk).2.xid = t.xid) := by
  cases createOk <;> cases importOk <;> cases transferOk <;>
    simp [eplX11TimelineAttachSyncFD, Nat.mod_eq_of_lt h]

/-- Witness for C4 at a concrete input: a failed import leaves the point
at 5; a fully successful call moves it to 6. -/
theorem attach_syncfd_atomic_witness :
    (eplX11TimelineAttachSyncFD { handle := 1, xid := 2, point := 5 } true false true).2
        = { handle := 1, xid := 2, point := 5 } ∧
    (eplX11TimelineAttachSyncFD { handle := 1, xid := 2, point := 5 } true true true).2.point
        = 6 := by
  refine ⟨?_, ?_⟩
  · exact (attach_syncfd_atomic { handle := 1, xid := 2, point := 5 } true false true
      (by decide)).1 (by decide)
  · exact ((attach_syncfd_atomic { handle := 1, xid := 2, point := 5 } true true true
      (by decide)).2 (by decide)).1

/-- C10: extracting a sync FD from a timeline's current point never
modifies the timeline — whatever the outcomes of the temporary-syncobj
create, transfer and export steps, the timeline record (kernel handle,
server XID and point counter) after the call is the one from before. -/
theorem point_to_syncfd_frame (t : X11Timeline)
    (createOk transferOk exportOk : Bool) (exportedFd : Nat) :
    (eplX11TimelinePointToSyncFD t createOk transferOk exportOk exportedFd).2 = t := by
  cases createOk <;> cases transferOk <;> cases exportOk <;>
    simp [eplX11TimelinePointToSyncFD]

/-- `X11BufferStatus` from x11-window.c. -/
inductive X11BufferStatus where
  | idle
  | inUse
  | idleNotified
  deriving Repr, DecidableEq

/-- `X11ColorBuffer` from x11-window.c, with the fields the presentation
engine reads and writes.  The struct's address (its identity in the
intrusive lists) is modelled by `id`; the gbm bo, driver handle and
dma-buf fd carry no engine-visible state and are elided.  A buffer is
calloc-zeroed on allocation, so a fresh buffer has `xpix = 0` and an
uninitialized timeline (`xid = 0`). -/
structure X11ColorBuffer where
  id : Nat
  status : X11BufferStatus
  xpix : Nat
  last_present_serial : Nat
  timeline : X11Timeline
  deriving Repr, DecidableEq

/-- A freshly allocated color buffer (`AllocOneColorBuffer` or
`AllocatePrimeBuffer` calloc the struct, so status is IDLE and the
pixmap and timeline are zero). -/
def newColorBuffer (freshId : Nat) : X11ColorBuffer :=
  { id := freshId, status := .idle, xpix := 0, last_present_serial := 0,
    timeline := { handle := 0, xid := 0, point := 0 } }

/-- `X11Window` from x11-window.c (plus the fields of the owning
`X11DisplayInstance` that the window code reads: `force_prime`,
`supports_prime`, explicit/implicit sync support).  The two intrusive
buffer lists are head-first Lean lists; the current front/back/prime
pointers are buffer ids. -/
structure X11Window where
  use_explicit_sync : Bool
  supports_native_fence_sync : Bool
  supports_implicit_sync : Bool
  force_prime : Bool
  supports_prime : Bool
  prime : Bool
  caps_async : Bool
  swap_interval : Int
  width : Nat
  height : Nat
  pending_width : Nat
  pending_height : Nat
  modifier : Nat
  native_destroyed : Bool
  needs_modifier_check : Bool
  color_buffers : List X11ColorBuffer
  prime_buffers : List X11ColorBuffer
  current_front : Option Nat
  current_back : Option Nat
  current_prime : Option Nat
  last_present_serial : Nat
  last_complete_serial : Nat
  last_complete_msc : Nat
  deriving Repr, DecidableEq

/-- Present special events consumed by `HandlePresentEvent`.  The
`destroyedFlag` of a ConfigureNotify is the XWayland
`PRESENT_WINDOW_DESTROYED_FLAG` bit of `pixmap_flags`; the
`suboptimalCopy` flag of a CompleteNotify is whether `mode` equals
`XCB_PRESENT_COMPLETE_MODE_SUBOPTIMAL_COPY`. -/
inductive PresentEvent where
  | configureNotify (width height : Nat) (destroyedFlag : Bool)
  | idleNotify (pixmap serial : Nat)
  | completeNotify (serial msc : Nat) (suboptimalCopy : Bool)
  deriving Repr, DecidableEq

/-- The update applied to the buffer matched by a PresentIdleNotify
event: IN_USE becomes IDLE_NOTIFIED (the code asserts the status is
IN_USE and only changes it in that case) and the recorded serial is
cleared. -/
def idleNotifyUpdate (b : X11ColorBuffer) : X11ColorBuffer :=
  { b with
    status := if b.status = .inUse then .idleNotified else b.status,
    last_present_serial := 0 }

/-- The PresentIdleNotify search loop of `HandlePresentEvent`: find the
first buffer whose pixmap XID and last present serial match the event,
update it, move it to the tail of the list, and stop. -/
def idleNotifyScan (pixmap serial : Nat) : List X11ColorBuffer → List X11ColorBuffer
  | [] => []
  | b :: rest =>
    if b.xpix = pixmap ∧ b.last_present_serial = serial then
      rest ++ [idleNotifyUpdate b]
    else
      b :: idleNotifyScan pixmap serial rest

/-- `HandlePresentEvent` from x11-window.c lines 757-833. -/
def HandlePresentEvent (w : X11Window) : PresentEvent → X11Window
  | .configureNotify wd ht dflag =>
    { w with pending_width := wd, pending_height := ht,
             native_destroyed := w.native_destroyed || dflag }
  | .idleNotify pixmap serial =>
    if w.use_explicit_sync then w
    else if w.prime then
      { w with prime_buffers := idleNotifyScan pixmap serial w.prime_buffers }
    else
      { w with color_buffers := idleNotifyScan pixmap serial w.color_buffers }
  | .completeNotify serial msc suboptimalCopy =>
    let age := wsub32 w.last_present_serial serial
    let pending := wsub32 w.last_present_serial w.last_complete_serial
    let w1 :=
      if age < pending then
        { w with last_complete_serial := serial, last_complete_msc := msc }
      else w
    if !w.force_prime && suboptimalCopy then
      { w1 with needs_modifier_check := true }
    else w1

/-- Folding a sequence of CompleteNotify events into the window state. -/
def runCompleteEvents (w : X11Window) (evts : List (Nat × Nat × Bool)) : X11Window :=
  evts.foldl (fun v e => HandlePresentEvent v (.completeNotify e.1 e.2.1 e.2.2)) w

theorem handleComplete_serial (w : X11Window) (serial msc : Nat) (so : Bool) :
    (HandlePresentEvent w (.completeNotify serial msc so)).last_complete_serial
      = (if wsub32 w.last_present_serial serial
            < wsub32 w.last_present_serial w.last_complete_serial
         then serial else w.last_complete_serial) ∧
    (HandlePresentEvent w (.completeNotify serial msc so)).last_complete_msc
      = (if wsub32 w.last_present_serial serial
            < wsub32 w.last_present_serial w.last_complete_serial
         then msc else w.last_complete_msc) ∧
    (HandlePresentEvent w (.completeNotify serial msc so)).last_present_serial
      = w.last_present_serial := by
  simp only [HandlePresentEvent]
  split <;> split <;> simp_all

theorem runCompleteEvents_cons (w : X11Window) (e : Nat × Nat × Bool)
    (rest : List (Nat × Nat × Bool)) :
    runCompleteEvents w (e :: rest)
      = runCompleteEvents (HandlePresentEvent w (.completeNotify e.1 e.2.1 e.2.2)) rest := rfl

theorem runCompleteEvents_newest (w : X11Window) (evts : List (Nat × Nat × Bool)) :
    (runCompleteEvents w evts).last_complete_serial
        ∈ w.last_complete_serial :: evts.map (fun e => e.1) ∧
    ∀ x ∈ w.last_complete_serial :: evts.map (fun e => e.1),
      wsub32 w.last_present_serial (runCompleteEvents w evts).last_complete_serial
        ≤ wsub32 w.last_present_serial x := by
  induction evts generalizing w with
  | nil =>
    refine ⟨by simp [runCompleteEvents], ?_⟩
    intro x hx
    simp only [List.map_nil, List.mem_singleton] at hx
    simp [runCompleteEvents, hx]
  | cons e rest ih =>
    obtain ⟨h1, _h2, h3⟩ := handleComplete_serial w e.1 e.2.1 e.2.2
    obtain ⟨ihm, ihmin⟩ := ih (HandlePresentEvent w (.completeNotify e.1 e.2.1 e.2.2))
    rw [h3] at ihmin
    have hmem1 : (HandlePresentEvent w (.completeNotify e.1 e.2.1 e.2.2)).last_complete_serial
        = e.1 ∨
        (HandlePresentEvent w (.completeNotify e.1 e.2.1 e.2.2)).last_complete_serial
        = w.last_complete_serial := by
      rw [h1]; split <;> simp
    have hage :
        wsub32 w.last_present_serial
            (HandlePresentEvent w (.completeNotify e.1 e.2.1 e.2.2)).last_complete_serial
          ≤ wsub32 w.last_present_serial e.1 ∧
        wsub32 w.last_present_serial
            (HandlePresentEvent w (.completeNotify e.1 e.2.1 e.2.2)).last_complete_serial
          ≤ wsub32 w.last_present_serial w.last_complete_serial := by
      rw [h1]; split
      · next hcond => exact ⟨le_refl _, le_of_lt hcond⟩
      · next hcond => exact ⟨Nat.le_of_not_lt hcond, le_refl _⟩
    constructor
    · rw [runCompleteEvents_cons]
      rcases List.mem_cons.1 ihm with heq | htail
      · rw [heq]
        rcases hmem1 with hv | hv <;> rw [hv] <;> simp
      · simp only [List.map_cons, List.mem_cons] at htail ⊢
        tauto
    · intro x hx
      rw [runCompleteEvents_cons]
      simp only [List.map_cons, List.mem_cons] at hx
      have hcur := ihmin
          (HandlePresentEvent w (.completeNotify e.1 e.2.1 e.2.2)).last_complete_serial
          (List.mem_cons_self _ _)
      rcases hx with hx | hx | hx
      · exact le_trans hcur (hx ▸ hage.2)
      · exact le_trans hcur (hx ▸ hage.1)
      · exact ihmin x (List.mem_cons_of_mem _ hx)

/-- C1: a CompleteNotify event updates the stored last complete serial
and MSC exactly when the unsigned 32-bit distance from the last present
serial to the event's serial is strictly smaller than the distance to
the current last complete serial; consequently, after any sequence of
CompleteNotify events (including sequences whose serials straddle 2^32,
since all distances are computed modulo 2^32) the stored serial is the
newest serial seen under that wrap-aware distance ordering. -/
theorem complete_notify_newest_serial :
    (∀ (v : X11Window) (serial msc : Nat) (so : Bool),
      (HandlePresentEvent v (.completeNotify serial msc so)).last_complete_serial
        = (if wsub32 v.last_present_serial serial
              < wsub32 v.last_present_serial v.last_complete_serial
           then serial else v.last_complete_serial) ∧
      (HandlePresentEvent v (.completeNotify serial msc so)).last_complete_msc
        = (if wsub32 v.last_present_serial serial
              < wsub32 v.last_present_serial v.last_complete_serial
           then msc else v.last_complete_msc)) ∧
    (∀ (w : X11Window) (evts : List (Nat × Nat × Bool)),
      (runCompleteEvents w evts).last_complete_serial
          ∈ w.last_complete_serial :: evts.map (fun e => e.1) ∧
      ∀ x ∈ w.last_complete_serial :: evts.map (fun e => e.1),
        wsub32 w.last_present_serial (runCompleteEvents w evts).last_complete_serial
          ≤ wsub32 w.last_present_serial x) := by
  constructor
  · intro v serial msc so
    obtain ⟨ha, hb, _⟩ := handleComplete_serial v serial msc so
    exact ⟨ha, hb⟩
  · exact runCompleteEvents_newest

/-- A sample window used to instantiate the window-level theorems at
concrete inputs. -/
def sampleWindow : X11Window :=
  { use_explicit_sync := false, supports_native_fence_sync := true,
    supports_implicit_sync := false, force_prime := false,
    supports_prime := false, prime := false, caps_async := true,
    swap_interval := 1, width := 640, height := 480,
    pending_width := 640, pending_height := 480, modifier := 77,
    native_destroyed := false, needs_modifier_check := false,
    color_buffers := [], prime_buffers := [],
    current_front := none, current_back := none, current_prime := none,
    last_present_serial := 5, last_complete_serial := 0,
    last_complete_msc := 0 }

/-- Witness for C1 on serials that straddle 2^32: with last present
serial 5, the sequence of completion serials 4294967295 (distance 6)
and 3 (distance 2) leaves the stored serial no older than the first
event's serial. -/
theorem complete_notify_newest_serial_witness :
    wsub32 5 (runCompleteEvents sampleWindow
        [(4294967295, 10, false), (3, 12, false)]).last_complete_serial
      ≤ wsub32 5 4294967295 :=
  (complete_notify_newest_serial.2 sampleWindow
      [(4294967295, 10, false), (3, 12, false)]).2 4294967295 (by decide)

theorem idleNotifyScan_first_match (pixmap serial : Nat)
    (l1 l2 : List X11ColorBuffer) (b : X11ColorBuffer)
    (hb : b.xpix = pixmap ∧ b.last_present_serial = serial)
    (hl1 : ∀ b' ∈ l1, ¬(b'.xpix = pixmap ∧ b'.last_present_serial = serial)) :
    idleNotifyScan pixmap serial (l1 ++ b :: l2)
      = l1 ++ (l2 ++ [idleNotifyUpdate b]) := by
  induction l1 with
  | nil => simp [idleNotifyScan, hb]
  | cons a l1' ih =>
    have hna : ¬(a.xpix = pixmap ∧ a.last_present_serial = serial) :=
      hl1 a (List.mem_cons_self _ _)
    simp only [List.cons_append, idleNotifyScan, if_neg hna]
    exact congrArg (a :: ·) (ih (fun b' hb' => hl1 b' (List.mem_cons_of_mem _ hb')))

/-- C7: under explicit sync a PresentIdleNotify event has no effect on
the window at all; otherwise, when the relevant list (the PRIME list
for a PRIME window, the direct color-buffer list otherwise) contains a
unique buffer matching the event's pixmap XID and serial (unique in the
sense that no buffer before it matches) and that buffer is IN_USE, the
event turns exactly that buffer to IDLE_NOTIFIED (clearing its recorded
serial), moves it to the tail of its list, and leaves every other
buffer — and the rest of the window state — unchanged. -/
theorem idle_notify_effect (w : X11Window) (pixmap serial : Nat) :
    (w.use_explicit_sync = true →
      HandlePresentEvent w (.idleNotify pixmap serial) = w) ∧
    (w.use_explicit_sync = false → w.prime = false →
      ∀ (l1 l2 : List X11ColorBuffer) (b : X11ColorBuffer),
        w.color_buffers = l1 ++ b :: l2 →
        b.xpix = pixmap → b.last_present_serial = serial →
        b.status = .inUse →
        (∀ b' ∈ l1, ¬(b'.xpix = pixmap ∧ b'.last_present_serial = serial)) →
        HandlePresentEvent w (.idleNotify pixmap serial)
          = { w with color_buffers :=
                l1 ++ (l2 ++ [{ b with status := .idleNotified,
                                       last_present_serial := 0 }]) }) ∧
    (w.use_explicit_sync = false → w.prime = true →
      ∀ (l1 l2 : List X11ColorBuffer) (b : X11ColorBuffer),
        w.prime_buffers = l1 ++ b :: l2 →
        b.xpix = pixmap → b.last_present_serial = serial →
        b.status = .inUse →
        (∀ b' ∈ l1, ¬(b'.xpix = pixmap ∧ b'.last_present_serial = serial)) →
        HandlePresentEvent w (.idleNotify pixmap serial)
          = { w with prime_buffers :=
                l1 ++ (l2 ++ [{ b with status := .idleNotified,
                                       last_present_serial := 0 }]) }) := by
  refine ⟨?_, ?_, ?_⟩
  · intro hx
    simp [HandlePresentEvent, hx]
  · intro hx hp l1 l2 b hlist hxpix hserial hstatus hl1
    have hupd : idleNotifyUpdate b
        = { b with status := .idleNotified, last_present_serial := 0 } := by
      simp [idleNotifyUpdate, hstatus]
    simp only [HandlePresentEvent, hx, hp, Bool.false_eq_true, if_false, hlist]
    rw [idleNotifyScan_first_match pixmap serial l1 l2 b ⟨hxpix, hserial⟩ hl1, hupd]
  · intro hx hp l1 l2 b hlist hxpix hserial hstatus hl1
    have hupd : idleNotifyUpdate b
        = { b with status := .idleNotified, last_present_serial := 0 } := by
      simp [idleNotifyUpdate, hstatus]
    simp only [HandlePresentEvent, hx, hp, Bool.false_eq_true, if_false, if_true]
    rw [hlist, idleNotifyScan_first_match pixmap serial l1 l2 b ⟨hxpix, hserial⟩ hl1, hupd]

/-- Witness for C7 at a concrete window: the matching IN_USE buffer 21
is flipped to IDLE_NOTIFIED and moved behind buffer 22. -/
theorem idle_notify_effect_witness :
    HandlePresentEvent
      { sampleWindow with color_buffers :=
          [{ id := 21, status := .inUse, xpix := 900, last_present_serial := 4,
             timeline := { handle := 0, xid := 0, point := 0 } },
           { id := 22, status := .idle, xpix := 901, last_present_serial := 0,
             timeline := { handle := 0, xid := 0, point := 0 } }] }
      (.idleNotify 900 4)
    = { sampleWindow with color_buffers :=
          [{ id := 22, status := .idle, xpix := 901, last_present_serial := 0,
             timeline := { handle := 0, xid := 0, point := 0 } },
           { id := 21, status := .idleNotified, xpix := 900, last_present_serial := 0,
             timeline := { handle := 0, xid := 0, point := 0 } }] } :=
  (idle_notify_effect
      { sampleWindow with color_buffers :=
          [{ id := 21, status := .inUse, xpix := 900, last_present_serial := 4,
             timeline := { handle := 0, xid := 0, point := 0 } },
           { id := 22, status := .idle, xpix := 901, last_present_serial := 0,
             timeline := { handle := 0, xid := 0, point := 0 } }] }
      900 4).2.1 rfl rfl []
      [{ id := 22, status := .idle, xpix := 901, last_present_serial := 0,
         timeline := { handle := 0, xid := 0, point := 0 } }]
      { id := 21, status := .inUse, xpix := 900, last_present_serial := 4,
        timeline := { handle := 0, xid := 0, point := 0 } }
      rfl rfl rfl rfl (by simp)

/-- `GetModifierIntersection` from x11-window.c lines 592-618: the
elements of the client list (in client-list order, duplicates kept)
that also appear in the server list. -/
def GetModifierIntersection (client_mods server_mods : List Nat) : List Nat :=
  client_mods.filter (fun m => server_mods.contains m)

/-- Result of `FindSupportedModifiers`: the modifier list to allocate
from and whether the PRIME presentation path is used. -/
structure ModifierSelection where
  modifiers : List Nat
  prime : Bool
  deriving Repr, DecidableEq

/-- `FindSupportedModifiers` from x11-window.c lines 623-729.
`driverMods` is the driver's renderable modifier list for the format,
`windowMods` and `screenMods` are the two lists of the server's
GetSupportedModifiers reply, and `replyOk` is whether that round trip
succeeded (it is only made when `force_prime` is false).  `none` stands
for the EGL_FALSE return. -/
def FindSupportedModifiers (driverMods windowMods screenMods : List Nat)
    (force_prime supports_prime replyOk : Bool) : Option ModifierSelection :=
  if force_prime = false ∧ replyOk = false then none
  else
    let numMods0 : List Nat :=
      if force_prime then []
      else if windowMods.length > 0 then GetModifierIntersection driverMods windowMods
      else []
    let numMods1 : List Nat :=
      if force_prime then []
      else if numMods0 = [] ∧ (windowMods.length = 0 ∨ supports_prime = false) then
        GetModifierIntersection driverMods screenMods
      else numMods0
    if numMods1 ≠ [] then some { modifiers := numMods1, prime := false }
    else if supports_prime then some { modifiers := driverMods, prime := true }
    else none

/-- Counterexample to C5: with driver list [5], an empty per-window
list, per-screen list [5] and a client that can offload
(`supports_prime = true`), the driver-window intersection is empty and
the driver-screen intersection is non-empty, and the code still selects
direct presentation (`prime = false`) with the screen intersection —
whereas the claim allows direct presentation from the screen list only
when the client cannot offload, and so predicts offload mode here. -/
theorem find_modifiers_counterexample :
    FindSupportedModifiers [5] [] [5] false true true
        = some { modifiers := [5], prime := false } ∧
    GetModifierIntersection [5] [] = [] ∧
    GetModifierIntersection [5] [5] = [5] ∧
    (some ({ modifiers := [5], prime := false } : ModifierSelection)
        ≠ some ({ modifiers := [5], prime := true } : ModifierSelection)) := by
  refine ⟨by decide, by decide, by decide, by decide⟩

/-- C5 as amended: with a successful server reply and `force_prime`
off, a non-empty driver-window intersection gives direct presentation
with exactly that intersection (in driver-list order); otherwise, when
the per-window list is empty or the client cannot offload, the
driver-screen intersection is taken and a non-empty result gives direct
presentation with it (regardless of offload capability); otherwise a
client that can offload gets PRIME mode with the full driver list, and
everything else fails. -/
theorem find_modifiers_amended (driverMods windowMods screenMods : List Nat)
    (sp : Bool) :
    FindSupportedModifiers driverMods windowMods screenMods false sp true
      = (if GetModifierIntersection driverMods windowMods ≠ [] then
           some { modifiers := GetModifierIntersection driverMods windowMods,
                  prime := false }
         else if (windowMods = [] ∨ sp = false)
             ∧ GetModifierIntersection driverMods screenMods ≠ [] then
           some { modifiers := GetModifierIntersection driverMods screenMods,
                  prime := false }
         else if sp then some { modifiers := driverMods, prime := true }
         else none) := by
  have hwin : windowMods.length = 0 ↔ windowMods = [] := List.length_eq_zero
  have hempty : windowMods = [] → GetModifierIntersection driverMods windowMods = [] := by
    intro h
    simp [GetModifierIntersection, h]
  simp only [FindSupportedModifiers, Bool.true_eq_false, and_false, if_false,
    if_neg (by simp : ¬(false = true))]
  by_cases hw : windowMods.length > 0
  · have hwne : ¬windowMods = [] := by
      intro h; rw [h] at hw; simp at hw
    simp only [if_pos hw]
    by_cases hi : GetModifierIntersection driverMods windowMods = []
    · simp only [hi, true_and, if_neg (by simp [hwne] : ¬windowMods = []), false_or]
      by_cases hsp : sp = false
      · simp [hsp, hi, hwne]
      · have hsp' : sp = true := by revert hsp; cases sp <;> simp
        simp [hsp', hi, hwne]
    · simp [hi, hwne]
  · have hwe : windowMods = [] := hwin.1 (by omega)
    have hie : GetModifierIntersection driverMods [] = [] := by
      simp [GetModifierIntersection]
    simp [hw, hwe, hie]

/-- Maximum number of color buffers for a window (x11-window.c). -/
def MAX_COLOR_BUFFERS : Nat := 4

/-- Maximum number of linear buffers for PRIME presentation. -/
def MAX_PRIME_BUFFERS : Nat := 2

/-- Maximum number of outstanding PresentPixmap requests before
eglSwapBuffers waits for one to complete. -/
def MAX_PENDING_FRAMES : Nat := 1

/-- A PresentPixmap or PresentPixmapSynced request as put on the wire by
`SendPresentPixmap`.  `synced` distinguishes the two; the timeline XID
and acquire/release points are only meaningful for a synced request. -/
structure PresentRequest where
  synced : Bool
  serial : Nat
  xpix : Nat
  timelineXid : Nat
  acquirePoint : Nat
  releasePoint : Nat
  optAsync : Bool
  optSuboptimal : Bool
  optCopy : Bool
  targetMSC : Nat
  deriving Repr, DecidableEq

/-- `SendPresentPixmap` from x11-window.c lines 1000-1087.  The request
options are modelled by the three flag booleans (ASYNC, SUBOPTIMAL,
COPY; `optAsync`/`optSuboptimal`/`optCopy` are the flags passed in by
the caller).  Note that `targetMSC` is declared `uint32_t` in the C
code, so the 64-bit sum `last_complete_msc + (numPending + 1) *
swap_interval` is truncated modulo 2^32 before being sent (the wire
field of the Present request is 64 bits wide).  Returns the new window
state, the new state of the presented buffer, and the request. -/
def SendPresentPixmap (w : X11Window) (buf : X11ColorBuffer)
    (optAsync optSuboptimal optCopy : Bool) :
    X11Window × X11ColorBuffer × PresentRequest :=
  let numPending := wsub32 w.last_present_serial w.last_complete_serial
  let async0 := optAsync || decide (w.swap_interval ≤ 0)
  let asyncSent := async0 && w.caps_async
  let targetMSC : Nat :=
    if async0 then 0
    else (w.last_complete_msc
           + ((numPending + 1) * intToU32 w.swap_interval) % M32) % M32
  let serial1 := (w.last_present_serial + 1) % M32
  let w1 := { w with last_present_serial := serial1 }
  if w.use_explicit_sync then
    let t := buf.timeline
    ( w1,
      { buf with
          timeline := { t with point := (t.point + 1) % M64 },
          status := .inUse, last_present_serial := serial1 },
      { synced := true, serial := serial1, xpix := buf.xpix,
        timelineXid := t.xid, acquirePoint := t.point,
        releasePoint := (t.point + 1) % M64,
        optAsync := asyncSent, optSuboptimal := optSuboptimal,
        optCopy := optCopy, targetMSC := targetMSC } )
  else
    ( w1,
      { buf with status := .inUse, last_present_serial := serial1 },
      { synced := false, serial := serial1, xpix := buf.xpix,
        timelineXid := 0, acquirePoint := 0, releasePoint := 0,
        optAsync := asyncSent, optSuboptimal := optSuboptimal,
        optCopy := optCopy, targetMSC := targetMSC } )

/-- C6 is contradicted by the code on large MSC values: `targetMSC` is a
`uint32_t`, so with swap interval 1, no pending frames and a last
completed MSC of 2^32 (the stored MSC is a uint64 and the Present
request's target-msc field is 64 bits wide, so the claimed value
2^32 + 1 is representable), the request carries target MSC 1 instead of
last_complete_msc + (pending + 1) * swap_interval = 2^32 + 1.
The remainder of the claim is accurate: the same evaluation shows the
async branch is taken exactly when the swap interval is ≤ 0 (with
target MSC 0), and the pending-frames gate is checked against
`MAX_PENDING_FRAMES = 1` before sending (see the swap model below). -/
theorem send_present_msc_truncated :
    (SendPresentPixmap
        { sampleWindow with last_complete_msc := 4294967296,
                            last_present_serial := 0 }
        (newColorBuffer 0) false false false).2.2.targetMSC = 1 ∧
    4294967296 + (wsub32 0 0 + 1) * 1 = 4294967297 ∧
    (1 : Nat) ≠ 4294967297 := by
  refine ⟨by decide, by decide, by decide⟩

/-- The effect of one `CheckBufferReleaseExplicit` /
`CheckBufferReleaseImplicit` / `CheckBufferReleaseNoSync` call on the
buffer list: some of the non-idle buffers other than `skip` become
IDLE.  Which ones — decided by the kernel timeline waits, the dma-buf
polls, or the previously received PresentIdleNotify events — is
supplied by the `released` oracle. -/
def markReleased (bufs : List X11ColorBuffer) (released : List Nat)
    (skip : Option Nat) : List X11ColorBuffer :=
  bufs.map fun b =>
    if some b.id ≠ skip ∧ b.status ≠ .idle ∧ released.contains b.id then
      { b with status := .idle }
    else b

/-- The scan at the top of the `GetFreeBuffer` loop: the first buffer
that is IDLE and is not the excluded buffer. -/
def findIdleBuffer (bufs : List X11ColorBuffer) (skip : Option Nat) :
    Option X11ColorBuffer :=
  bufs.find? (fun b => decide (b.status = .idle ∧ some b.id ≠ skip))

/-- The `while` loop of `GetFreeBuffer` (x11-window.c lines 2052-2139):
return an idle non-excluded buffer if there is one; otherwise allocate
a fresh buffer (prepending it to the list, as `glvnd_list_add` does)
provided the list holds strictly fewer than `cap` buffers; otherwise
wait for a release and retry.  One `waits` entry is consumed per wait
iteration (the released-buffer oracle for that wait); an exhausted
oracle stands for a wait that keeps failing until the code gives up and
returns NULL.  `allocOk` is the outcome of
`AllocOneColorBuffer`/`AllocatePrimeBuffer`. -/
def GetFreeBufferLoop (skip : Option Nat) (cap freshId : Nat) (allocOk : Bool)
    (deleted destroyed : Bool) :
    List X11ColorBuffer → List (List Nat) →
    Option X11ColorBuffer × List X11ColorBuffer
  | bufs, waits =>
    if deleted || destroyed then (none, bufs)
    else
      match findIdleBuffer bufs skip with
      | some b => (some b, bufs)
      | none =>
        if bufs.length < cap then
          if allocOk then
            (some (newColorBuffer freshId), newColorBuffer freshId :: bufs)
          else (none, bufs)
        else
          match waits with
          | [] => (none, bufs)
          | rel :: rest =>
            GetFreeBufferLoop skip cap freshId allocOk deleted destroyed
              (markReleased bufs rel skip) rest

/-- `GetFreeBuffer` from x11-window.c lines 2007-2142: an initial
non-blocking release poll (`initReleased` oracle), then the loop. -/
def GetFreeBuffer (bufs : List X11ColorBuffer) (skip : Option Nat) (cap : Nat)
    (initReleased : List Nat) (waits : List (List Nat)) (freshId : Nat)
    (allocOk : Bool) (deleted destroyed : Bool) :
    Option X11ColorBuffer × List X11ColorBuffer :=
  GetFreeBufferLoop skip cap freshId allocOk deleted destroyed
    (markReleased bufs initReleased skip) waits

/-- `AllocWindowBuffers` from x11-window.c lines 488-573: on success it
frees every old buffer of both lists (`FreeWindowBuffers`) and then
inserts exactly a new front and back buffer (`glvnd_list_add` prepends
the front and then the back, so the list is [back, front]) plus, for
PRIME, one linear intermediate; the window size, modifier and prime
flag are updated.  `allocOk` is the combined outcome of the fallible
steps (the buffer allocations and the driver's SetColorBuffers call).
If any of them fails, the lists are untouched — and, because the C
function initializes its `success` variable to EGL_TRUE, the failure
paths still return EGL_TRUE, so the returned EGLBoolean is true in
every case. -/
def AllocWindowBuffers (w : X11Window) (allocOk : Bool)
    (frontId backId sharedId chosenModifier : Nat) (prime : Bool) :
    Bool × X11Window :=
  if allocOk then
    (true,
     { w with
        color_buffers := [newColorBuffer backId, newColorBuffer frontId],
        prime_buffers := if prime then [newColorBuffer sharedId] else [],
        current_front := some frontId,
        current_back := some backId,
        current_prime := if prime then some sharedId else none,
        width := w.pending_width, height := w.pending_height,
        modifier := chosenModifier, prime := prime })
  else (true, w)

/-- The operations of a window trace that touch the buffer pools: a
free-buffer acquisition (from eglSwapBuffers), a reallocation (from
`CheckReallocWindow`, at creation or on resize/modifier change), and a
Present event delivered to `HandlePresentEvent`. -/
inductive WindowOp where
  | getFree (primeList : Bool) (skip : Option Nat) (initReleased : List Nat)
      (waits : List (List Nat)) (freshId : Nat) (allocOk : Bool) (deleted : Bool)
  | realloc (allocOk : Bool) (frontId backId sharedId chosenModifier : Nat)
      (prime : Bool)
  | event (e : PresentEvent)

/-- The effect of one trace operation on the window state. -/
def windowStep (w : X11Window) : WindowOp → X11Window
  | .getFree primeList skip initRel waits freshId allocOk deleted =>
    if primeList then
      { w with prime_buffers :=
          (GetFreeBuffer w.prime_buffers skip MAX_PRIME_BUFFERS initRel waits
            freshId allocOk deleted w.native_destroyed).2 }
    else
      { w with color_buffers :=
          (GetFreeBuffer w.color_buffers skip MAX_COLOR_BUFFERS initRel waits
            freshId allocOk deleted w.native_destroyed).2 }
  | .realloc allocOk frontId backId sharedId chosenModifier prime =>
    (AllocWindowBuffers w allocOk frontId backId sharedId chosenModifier prime).2
  | .event e => HandlePresentEvent w e

theorem markReleased_length (bufs : List X11ColorBuffer) (released : List Nat)
    (skip : Option Nat) : (markReleased bufs released skip).length = bufs.length :=
  List.length_map bufs _

theorem getFreeLoop_growth (skip : Option Nat) (cap freshId : Nat) (allocOk : Bool)
    (deleted destroyed : Bool) (waits : List (List Nat)) (bufs : List X11ColorBuffer) :
    (GetFreeBufferLoop skip cap freshId allocOk deleted destroyed bufs waits).2.length
        = bufs.length ∨
    ((GetFreeBufferLoop skip cap freshId allocOk deleted destroyed bufs waits).2.length
        = bufs.length + 1 ∧ bufs.length < cap) := by
  induction waits generalizing bufs with
  | nil =>
    rw [GetFreeBufferLoop]
    split
    · left; rfl
    · match hfind : findIdleBuffer bufs skip with
      | some b => left; rfl
      | none =>
        simp only
        split
        · next hlt =>
          split
          · right; exact ⟨by simp, hlt⟩
          · left; rfl
        · left; rfl
  | cons rel rest ih =>
    rw [GetFreeBufferLoop]
    split
    · left; rfl
    · match hfind : findIdleBuffer bufs skip with
      | some b => left; rfl
      | none =>
        simp only
        split
        · next hlt =>
          split
          · right; exact ⟨by simp, hlt⟩
          · left; rfl
        · next hge =>
          have := ih (markReleased bufs rel skip)
          rw [markReleased_length] at this
          exact this

theorem getFree_growth (bufs : List X11ColorBuffer) (skip : Option Nat) (cap : Nat)
    (initReleased : List Nat) (waits : List (List Nat)) (freshId : Nat)
    (allocOk : Bool) (deleted destroyed : Bool) :
    (GetFreeBuffer bufs skip cap initReleased waits freshId allocOk
        deleted destroyed).2.length = bufs.length ∨
    ((GetFreeBuffer bufs skip cap initReleased waits freshId allocOk
        deleted destroyed).2.length = bufs.length + 1 ∧ bufs.length < cap) := by
  have := getFreeLoop_growth skip cap freshId allocOk deleted destroyed waits
      (markReleased bufs initReleased skip)
  rw [markReleased_length] at this
  exact this

theorem idleNotifyScan_length (pixmap serial : Nat) (l : List X11ColorBuffer) :
    (idleNotifyScan pixmap serial l).length = l.length := by
  induction l with
  | nil => rfl
  | cons b rest ih =>
    rw [idleNotifyScan]
    split
    · simp
    · simp [ih]

theorem handleEvent_lengths (w : X11Window) (e : PresentEvent) :
    (HandlePresentEvent w e).color_buffers.length = w.color_buffers.length ∧
    (HandlePresentEvent w e).prime_buffers.length = w.prime_buffers.length := by
  cases e with
  | configureNotify wd ht dflag => exact ⟨rfl, rfl⟩
  | idleNotify pixmap serial =>
    simp only [HandlePresentEvent]
    split
    · exact ⟨rfl, rfl⟩
    · split
      · exact ⟨rfl, idleNotifyScan_length _ _ _⟩
      · exact ⟨idleNotifyScan_length _ _ _, rfl⟩
  | completeNotify serial msc so =>
    simp only [HandlePresentEvent]
    split <;> split <;> exact ⟨rfl, rfl⟩

theorem windowStep_bounds (w : X11Window) (op : WindowOp)
    (h1 : w.color_buffers.length ≤ MAX_COLOR_BUFFERS)
    (h2 : w.prime_buffers.length ≤ MAX_PRIME_BUFFERS) :
    (windowStep w op).color_buffers.length ≤ MAX_COLOR_BUFFERS ∧
    (windowStep w op).prime_buffers.length ≤ MAX_PRIME_BUFFERS := by
  cases op with
  | getFree primeList skip initRel waits freshId allocOk deleted =>
    cases primeList with
    | false =>
      refine ⟨?_, h2⟩
      show (GetFreeBuffer w.color_buffers skip MAX_COLOR_BUFFERS initRel waits
          freshId allocOk deleted w.native_destroyed).2.length ≤ MAX_COLOR_BUFFERS
      rcases getFree_growth w.color_buffers skip MAX_COLOR_BUFFERS initRel waits
          freshId allocOk deleted w.native_destroyed with h | ⟨h, hlt⟩
      · rw [h]; exact h1
      · rw [h]; omega
    | true =>
      refine ⟨h1, ?_⟩
      show (GetFreeBuffer w.prime_buffers skip MAX_PRIME_BUFFERS initRel waits
          freshId allocOk deleted w.native_destroyed).2.length ≤ MAX_PRIME_BUFFERS
      rcases getFree_growth w.prime_buffers skip MAX_PRIME_BUFFERS initRel waits
          freshId allocOk deleted w.native_destroyed with h | ⟨h, hlt⟩
      · rw [h]; exact h2
      · rw [h]; omega
  | realloc allocOk frontId backId sharedId chosenModifier prime =>
    cases allocOk with
    | false => exact ⟨h1, h2⟩
    | true =>
      cases prime with
      | false =>
        exact ⟨by simp [windowStep, AllocWindowBuffers, MAX_COLOR_BUFFERS],
               by simp [windowStep, AllocWindowBuffers, MAX_PRIME_BUFFERS]⟩
      | true =>
        exact ⟨by simp [windowStep, AllocWindowBuffers, MAX_COLOR_BUFFERS],
               by simp [windowStep, AllocWindowBuffers, MAX_PRIME_BUFFERS]⟩
  | event e =>
    obtain ⟨ha, hb⟩ := handleEvent_lengths w e
    exact ⟨by rw [windowStep, ha]; exact h1, by rw [windowStep, hb]; exact h2⟩

/-- C2: starting from any window whose pools respect the caps (window
creation installs 2 direct buffers and at most 1 intermediate, so it
does), no trace of free-buffer acquisitions, reallocations and Present
events ever pushes the direct list beyond `MAX_COLOR_BUFFERS = 4` or
the PRIME list beyond `MAX_PRIME_BUFFERS = 2`; moreover a free-buffer
acquisition grows its list by one only when the list holds strictly
fewer buffers than the cap (and otherwise leaves its length unchanged),
and a successful reallocation replaces the pools by exactly two direct
buffers plus at most one intermediate. -/
theorem pool_bounded (w : X11Window) (ops : List WindowOp)
    (h1 : w.color_buffers.length ≤ MAX_COLOR_BUFFERS)
    (h2 : w.prime_buffers.length ≤ MAX_PRIME_BUFFERS) :
    ((ops.foldl windowStep w).color_buffers.length ≤ MAX_COLOR_BUFFERS ∧
     (ops.foldl windowStep w).prime_buffers.length ≤ MAX_PRIME_BUFFERS) ∧
    (∀ (bufs : List X11ColorBuffer) (skip : Option Nat) (cap : Nat)
       (initRel : List Nat) (waits : List (List Nat)) (freshId : Nat)
       (allocOk deleted destroyed : Bool),
      (GetFreeBuffer bufs skip cap initRel waits freshId allocOk
          deleted destroyed).2.length = bufs.length ∨
      ((GetFreeBuffer bufs skip cap initRel waits freshId allocOk
          deleted destroyed).2.length = bufs.length + 1 ∧ bufs.length < cap)) ∧
    (∀ (v : X11Window) (frontId backId sharedId chosenModifier : Nat) (prime : Bool),
      (AllocWindowBuffers v true frontId backId sharedId chosenModifier
          prime).2.color_buffers
        = [newColorBuffer backId, newColorBuffer frontId] ∧
      (AllocWindowBuffers v true frontId backId sharedId chosenModifier
          prime).2.prime_buffers.length ≤ 1) := by
  refine ⟨?_, ?_, ?_⟩
  · induction ops generalizing w with
    | nil => exact ⟨h1, h2⟩
    | cons op rest ih =>
      obtain ⟨ha, hb⟩ := windowStep_bounds w op h1 h2
      exact ih (windowStep w op) ha hb
  · intro bufs skip cap initRel waits freshId allocOk deleted destroyed
    exact getFree_growth bufs skip cap initRel waits freshId allocOk deleted destroyed
  · intro v frontId backId sharedId chosenModifier prime
    cases prime <;> exact ⟨by simp [AllocWindowBuffers], by simp [AllocWindowBuffers]⟩

/-- Witness for C2: a full direct pool (4 buffers, none idle) stays at 4
across a free-buffer acquisition that waits once, and a PRIME window
trace of creation plus events keeps both pools within the caps. -/
theorem pool_bounded_witness :
    ((([WindowOp.realloc true 1 2 3 77 true,
        WindowOp.getFree false none [] [[2]] 10 true false,
        WindowOp.event (.idleNotify 900 4),
        WindowOp.getFree true none [] [] 11 true false] : List WindowOp).foldl
          windowStep sampleWindow).color_buffers.length ≤ MAX_COLOR_BUFFERS) :=
  (pool_bounded sampleWindow
      [WindowOp.realloc true 1 2 3 77 true,
       WindowOp.getFree false none [] [[2]] 10 true false,
       WindowOp.event (.idleNotify 900 4),
       WindowOp.getFree true none [] [] 11 true false]
      (by decide) (by decide)).1.1

/-- EGL error kinds reported by the swap path. -/
inductive EglErrKind where
  | badNativeWindow
  | badAlloc
  deriving Repr, DecidableEq

/-- `CheckWindowDeleted` from x11-window.c lines 2144-2160: `some (ret,
err)` when the caller must return immediately — surface deleted gives
success with no error, a destroyed native window gives failure with
EGL_BAD_NATIVE_WINDOW — and `none` when the caller continues. -/
def CheckWindowDeleted (deleted : Bool) (w : X11Window) :
    Option (Bool × Option EglErrKind) :=
  if deleted then some (true, none)
  else if w.native_destroyed then some (false, some .badNativeWindow)
  else none

/-- Dereference a buffer pointer (modelled as an id) in a buffer list. -/
def getBuffer (bufs : List X11ColorBuffer) (bid : Nat) : Option X11ColorBuffer :=
  bufs.find? (fun b => decide (b.id = bid))

/-- Write an updated buffer back to its place in a list (C mutates the
struct in place through the pointer). -/
def setBuffer (bufs : List X11ColorBuffer) (b : X11ColorBuffer) :
    List X11ColorBuffer :=
  bufs.map fun x => if x.id = b.id then b else x

/-- `CreateSharedPixmap` from x11-window.c lines 1092-1149: duplicate or
export the dma-buf fd (`fdOk`), create the buffer's timeline if
explicit sync is in use and it does not have one yet (`tlOk` — note a
later failure leaves the created timeline on the buffer), and send the
checked PixmapFromBuffers request (`pixOk`); on success the buffer's
pixmap XID is the fresh XID. -/
def CreateSharedPixmap (w : X11Window) (buf : X11ColorBuffer)
    (fdOk tlOk pixOk : Bool) (newXid newTlXid newTlHandle : Nat) :
    Bool × X11ColorBuffer :=
  if !fdOk then (false, buf)
  else if w.use_explicit_sync ∧ buf.timeline.xid = 0 then
    if !tlOk then (false, buf)
    else
      let buf1 := { buf with
        timeline := { handle := newTlHandle, xid := newTlXid, point := 0 } }
      if pixOk then (true, { buf1 with xpix := newXid }) else (false, buf1)
  else
    if pixOk then (true, { buf with xpix := newXid }) else (false, buf)

/-- `SyncRendering` from x11-window.c lines 1573-1644: without the
native-fence-sync extension it just calls Finish; otherwise it creates
and dups a native fence (`createSyncOk` covers both steps) and, under
explicit sync, attaches it to the buffer's timeline via
`eplX11TimelineAttachSyncFD` (failing the swap if that fails, with
EGL_BAD_ALLOC); under implicit sync an import failure falls back to
Finish and still succeeds.  Returns (success, error, buffer'). -/
def SyncRendering (w : X11Window) (buf : X11ColorBuffer)
    (createSyncOk aCreate aImport aTransfer : Bool) :
    Bool × Option EglErrKind × X11ColorBuffer :=
  if !w.supports_native_fence_sync then (true, none, buf)
  else if !createSyncOk then (false, none, buf)
  else if w.use_explicit_sync then
    let r := eplX11TimelineAttachSyncFD buf.timeline aCreate aImport aTransfer
    if r.1 then (true, none, { buf with timeline := r.2 })
    else (false, some .badAlloc, buf)
  else (true, none, buf)

/-- The wait-for-pending-frames loop of `eplX11SwapBuffers` (lines
2236-2252): while the wrap-aware pending count exceeds
`MAX_PENDING_FRAMES`, wait for a Present event, dispatch it, and
re-check the deleted/destroyed flags.  `evts` is the stream of events
the server delivers, one per blocking wait (non-blocking polls in this
schedule deliver nothing); an empty stream stands for a dead connection
(`xcb_wait_for_special_event` returning NULL), which sets
`native_destroyed` and fails with EGL_BAD_ALLOC.  Returns (bail-out,
window', remaining events): a `some` bail-out aborts the swap with the
given result. -/
def waitPendingLoop (deleted : Bool) :
    List PresentEvent → X11Window →
    Option (Bool × Option EglErrKind) × X11Window × List PresentEvent
  | [], w =>
    if wsub32 w.last_present_serial w.last_complete_serial ≤ MAX_PENDING_FRAMES then
      (none, w, [])
    else if w.native_destroyed then
      (CheckWindowDeleted deleted w, w, [])
    else
      (some (false, some .badAlloc), { w with native_destroyed := true }, [])
  | e :: rest, w =>
    if wsub32 w.last_present_serial w.last_complete_serial ≤ MAX_PENDING_FRAMES then
      (none, w, e :: rest)
    else if w.native_destroyed then
      (CheckWindowDeleted deleted w, w, e :: rest)
    else
      match CheckWindowDeleted deleted (HandlePresentEvent w e) with
      | some r => (some r, HandlePresentEvent w e, rest)
      | none => waitPendingLoop deleted rest (HandlePresentEvent w e)

/-- The oracle for one `GetFreeBuffer` call. -/
structure FreeOracle where
  initReleased : List Nat
  waits : List (List Nat)
  freshId : Nat
  allocOk : Bool
  deriving Repr, DecidableEq

/-- The oracles for one `eplX11SwapBuffers` call: outcomes of every
fallible external step, fresh XIDs/handles, and the Present events the
server delivers to blocking waits. -/
structure SwapEnv where
  deleted : Bool
  primeFree : FreeOracle
  blitOk : Bool
  fdOk : Bool
  tlOk : Bool
  pixOk : Bool
  pixmapXid : Nat
  tlXid : Nat
  tlHandle : Nat
  createSyncOk : Bool
  attachCreateOk : Bool
  attachImportOk : Bool
  attachTransferOk : Bool
  waitEvents : List PresentEvent
  windowMods : List Nat
  screenMods : List Nat
  driverMods : List Nat
  replyOk : Bool
  reallocOk : Bool
  reallocFront : Nat
  reallocBack : Nat
  reallocShared : Nat
  reallocModifier : Nat
  rotateFree : FreeOracle
  setBuffersOk : Bool
  deriving Repr, DecidableEq

/-- `CheckReallocWindow` from x11-window.c lines 846-941: nothing
happens on a deleted/destroyed window; otherwise a pending-size change
(or, when allowed, a pending modifier check whose fresh modifier list
no longer contains the current modifier) triggers `AllocWindowBuffers`.
Returns (success, window', was_resized). -/
def CheckReallocWindow (w : X11Window) (deleted allowModifierChange : Bool)
    (env : SwapEnv) : Bool × X11Window × Bool :=
  if deleted || w.native_destroyed then (true, w, false)
  else
    let needRealloc0 :=
      decide (w.pending_width ≠ w.width) || decide (w.pending_height ≠ w.height)
    if needRealloc0 || (allowModifierChange && w.needs_modifier_check) then
      let chosen : Option (ModifierSelection × Bool) :=
        if w.needs_modifier_check then
          match FindSupportedModifiers env.driverMods env.windowMods env.screenMods
              w.force_prime w.supports_prime env.replyOk with
          | none => none
          | some sel =>
            let need :=
              if !needRealloc0 && allowModifierChange then
                !(sel.modifiers.contains w.modifier)
              else needRealloc0
            some (sel, need)
        else
          some ({ modifiers := [w.modifier], prime := w.prime }, needRealloc0)
      match chosen with
      | none => (false, w, false)
      | some (sel, need) =>
        if need then
          let r := AllocWindowBuffers w env.reallocOk env.reallocFront
              env.reallocBack env.reallocShared env.reallocModifier sel.prime
          if r.1 then (true, { r.2 with needs_modifier_check := false }, true)
          else (false, r.2, false)
        else if allowModifierChange then
          (true, { w with needs_modifier_check := false }, false)
        else (true, w, false)
    else (true, w, false)

/-- The result of one `eplX11SwapBuffers` call: the EGLBoolean return
value, the EGL error reported (if any), the window state after the
call, and the Present requests put on the wire during the call. -/
structure SwapResult where
  ret : Bool
  err : Option EglErrKind
  w : X11Window
  requests : List PresentRequest
  deriving Repr, DecidableEq

/-- `eplX11SwapBuffers` from x11-window.c lines 2162-2325, under the
event schedule in which non-blocking polls deliver no events (blocking
waits consume `env.waitEvents` one at a time): check the
deleted/destroyed flags; for PRIME obtain a free linear intermediate
and blit into it; create the shared pixmap (and timeline) on first
present of the buffer; synchronize rendering; wait while more than
`MAX_PENDING_FRAMES` presents are outstanding; send the present
request; reallocate on resize/modifier change; otherwise rotate the
swap chain, fetching a fresh back buffer for the non-PRIME path. -/
def eplX11SwapBuffers (w0 : X11Window) (env : SwapEnv) : SwapResult :=
  match CheckWindowDeleted env.deleted w0 with
  | some r => { ret := r.1, err := r.2, w := w0, requests := [] }
  | none =>
    -- choose the buffer whose pixmap will be presented
    let primeStep : Option X11ColorBuffer × X11Window :=
      if w0.prime then
        let fr := GetFreeBuffer w0.prime_buffers none MAX_PRIME_BUFFERS
            env.primeFree.initReleased env.primeFree.waits env.primeFree.freshId
            env.primeFree.allocOk env.deleted w0.native_destroyed
        (fr.1, { w0 with prime_buffers := fr.2 })
      else
        match w0.current_back with
        | none => (none, w0)
        | some bid => (getBuffer w0.color_buffers bid, w0)
    match primeStep with
    | (none, w1) => { ret := false, err := none, w := w1, requests := [] }
    | (some shared0, w1) =>
      if w1.prime ∧ env.blitOk = false then
        { ret := false, err := some .badAlloc, w := w1, requests := [] }
      else
        -- create the shared pixmap (and, for explicit sync, the timeline)
        let pixStep : Bool × X11ColorBuffer :=
          if shared0.xpix = 0 then
            CreateSharedPixmap w1 shared0 env.fdOk env.tlOk env.pixOk
              env.pixmapXid env.tlXid env.tlHandle
          else (true, shared0)
        let shared1 := pixStep.2
        let w2 :=
          if w1.prime then { w1 with prime_buffers := setBuffer w1.prime_buffers shared1 }
          else { w1 with color_buffers := setBuffer w1.color_buffers shared1 }
        if pixStep.1 = false then
          { ret := false, err := some .badAlloc, w := w2, requests := [] }
        else
          let syncStep := SyncRendering w2 shared1 env.createSyncOk
              env.attachCreateOk env.attachImportOk env.attachTransferOk
          let shared2 := syncStep.2.2
          let w3 :=
            if w2.prime then { w2 with prime_buffers := setBuffer w2.prime_buffers shared2 }
            else { w2 with color_buffers := setBuffer w2.color_buffers shared2 }
          if syncStep.1 = false then
            { ret := false, err := syncStep.2.1, w := w3, requests := [] }
          else
            let optSuboptimal := !w3.force_prime
            match waitPendingLoop env.deleted env.waitEvents w3 with
            | (some r, w4, _) => { ret := r.1, err := r.2, w := w4, requests := [] }
            | (none, w4, _) =>
              let send := SendPresentPixmap w4 shared2 false optSuboptimal false
              let shared3 := send.2.1
              let req := send.2.2
              let w5 :=
                if send.1.prime then
                  { send.1 with prime_buffers := setBuffer send.1.prime_buffers shared3 }
                else
                  { send.1 with color_buffers := setBuffer send.1.color_buffers shared3 }
              match CheckReallocWindow w5 env.deleted true env with
              | (false, w6, _) =>
                { ret := false, err := some .badAlloc, w := w6, requests := [req] }
              | (true, w6, resized) =>
                if resized then { ret := true, err := none, w := w6, requests := [req] }
                else if w6.prime then
                  -- PRIME: the server holds the intermediate, so just swap
                  -- the private front and back buffers
                  match w6.current_front with
                  | none => { ret := false, err := none, w := w6, requests := [req] }
                  | some newBackId =>
                    let w8 := { w6 with
                      current_front := w6.current_back,
                      current_back := some newBackId,
                      current_prime := some shared3.id }
                    if env.setBuffersOk then
                      { ret := true, err := none, w := w8, requests := [req] }
                    else
                      { ret := false, err := some .badAlloc, w := w8, requests := [req] }
                else
                  let gf := GetFreeBuffer w6.color_buffers w6.current_back
                      MAX_COLOR_BUFFERS env.rotateFree.initReleased
                      env.rotateFree.waits env.rotateFree.freshId
                      env.rotateFree.allocOk env.deleted w6.native_destroyed
                  let w7 := { w6 with color_buffers := gf.2 }
                  match CheckWindowDeleted env.deleted w7 with
                  | some r => { ret := r.1, err := r.2, w := w7, requests := [req] }
                  | none =>
                    match gf.1 with
                    | none => { ret := false, err := none, w := w7, requests := [req] }
                    | some newBack =>
                      let w8 := { w7 with
                        current_front := w7.current_back,
                        current_back := some newBack.id }
                      if env.setBuffersOk then
                        { ret := true, err := none, w := w8, requests := [req] }
                      else
                        { ret := false, err := some .badAlloc, w := w8, requests := [req] }

/-- A sample swap environment in which every fallible step succeeds. -/
def sampleEnv : SwapEnv :=
  { deleted := false,
    primeFree := { initReleased := [], waits := [], freshId := 0, allocOk := true },
    blitOk := true, fdOk := true, tlOk := true, pixOk := true,
    pixmapXid := 901, tlXid := 501, tlHandle := 601,
    createSyncOk := true, attachCreateOk := true, attachImportOk := true,
    attachTransferOk := true, waitEvents := [],
    windowMods := [], screenMods := [], driverMods := [], replyOk := true,
    reallocOk := true, reallocFront := 0, reallocBack := 0, reallocShared := 0,
    reallocModifier := 0,
    rotateFree := { initReleased := [], waits := [], freshId := 0, allocOk := true },
    setBuffersOk := true }

/-- C8: once the sticky `native_destroyed` flag is set (and the surface
is not deleted), a swap-buffers call returns failure with
EGL_BAD_NATIVE_WINDOW, changes nothing and sends no present request,
and every free-buffer acquisition on a destroyed window returns no
buffer; whereas with the surface's sticky `deleted` flag set the swap
returns success without sending any present request and without
touching the window. -/
theorem swap_destroyed_or_deleted (w : X11Window) (env : SwapEnv) :
    (w.native_destroyed = true → env.deleted = false →
      eplX11SwapBuffers w env
        = { ret := false, err := some .badNativeWindow, w := w, requests := [] } ∧
      ∀ (bufs : List X11ColorBuffer) (skip : Option Nat) (cap : Nat)
        (initRel : List Nat) (waits : List (List Nat)) (freshId : Nat)
        (allocOk deleted : Bool),
        (GetFreeBuffer bufs skip cap initRel waits freshId allocOk
            deleted true).1 = none) ∧
    (env.deleted = true →
      eplX11SwapBuffers w env
        = { ret := true, err := none, w := w, requests := [] }) := by
  constructor
  · intro hnd hdel
    have hc : CheckWindowDeleted env.deleted w
        = some (false, some .badNativeWindow) := by
      rw [CheckWindowDeleted, hdel, hnd]; simp
    constructor
    · simp only [eplX11SwapBuffers, hc]
    · intro bufs skip cap initRel waits freshId allocOk deleted
      cases waits <;> simp [GetFreeBuffer, GetFreeBufferLoop]
  · intro hdel
    have hc : CheckWindowDeleted env.deleted w = some (true, none) := by
      rw [CheckWindowDeleted, hdel]; simp
    simp only [eplX11SwapBuffers, hc]

/-- Witness for C8 at a concrete window and environment. -/
theorem swap_destroyed_or_deleted_witness :
    eplX11SwapBuffers { sampleWindow with native_destroyed := true } sampleEnv
      = { ret := false, err := some .badNativeWindow,
          w := { sampleWindow with native_destroyed := true }, requests := [] } ∧
    eplX11SwapBuffers sampleWindow { sampleEnv with deleted := true }
      = { ret := true, err := none, w := sampleWindow, requests := [] } :=
  ⟨((swap_destroyed_or_deleted { sampleWindow with native_destroyed := true }
        sampleEnv).1 rfl rfl).1,
   (swap_destroyed_or_deleted sampleWindow
        { sampleEnv with deleted := true }).2 rfl⟩

/-- The fresh window of scenario S1: 640x480, explicit sync, swap
interval 1, the two creation-time buffers (ids 1 = back, 0 = front, in
list order [back, front] as built by `AllocWindowBuffers`), no presents
yet, and `m` the last completed MSC before the sequence. -/
def s1Window (m : Nat) : X11Window :=
  { use_explicit_sync := true, supports_native_fence_sync := true,
    supports_implicit_sync := false, force_prime := false,
    supports_prime := false, prime := false, caps_async := true,
    swap_interval := 1, width := 640, height := 480,
    pending_width := 640, pending_height := 480, modifier := 77,
    native_destroyed := false, needs_modifier_check := false,
    color_buffers := [newColorBuffer 1, newColorBuffer 0],
    prime_buffers := [],
    current_front := some 0, current_back := some 1, current_prime := none,
    last_present_serial := 0, last_complete_serial := 0,
    last_complete_msc := m }

/-- Environment of the first S1 swap: everything succeeds, fresh pixmap
XID 901 and timeline XID 501 / handle 601, no events needed. -/
def s1Env1 : SwapEnv := sampleEnv

/-- Environment of the second S1 swap: fresh XIDs 902/502/602, and the
swap-chain rotation allocates the third buffer, id 2. -/
def s1Env2 : SwapEnv :=
  { sampleEnv with
    pixmapXid := 902, tlXid := 502, tlHandle := 602,
    rotateFree := { initReleased := [], waits := [], freshId := 2, allocOk := true } }

/-- Environment of the third S1 swap: fresh XIDs 903/503/603, the
rotation allocates buffer id 3, and — as required to get past the
pending-frames gate — the server delivers the CompleteNotify for
serial 1 at MSC m+1. -/
def s1Env3 (m : Nat) : SwapEnv :=
  { sampleEnv with
    pixmapXid := 903, tlXid := 503, tlHandle := 603,
    rotateFree := { initReleased := [], waits := [], freshId := 3, allocOk := true },
    waitEvents := [.completeNotify 1 (m + 1) false] }

/-- The three successive swap results of scenario S1. -/
def s1Results (m : Nat) : SwapResult × SwapResult × SwapResult :=
  let r1 := eplX11SwapBuffers (s1Window m) s1Env1
  let r2 := eplX11SwapBuffers r1.w s1Env2
  let r3 := eplX11SwapBuffers r2.w (s1Env3 m)
  (r1, r2, r3)

/-- The present requests sent during scenario S1, in order. -/
def s1Requests (m : Nat) : List PresentRequest :=
  (s1Results m).1.requests ++ (s1Results m).2.1.requests
    ++ (s1Results m).2.2.requests


/-- The window state after the first S1 swap: buffer 1 presented (pixmap
901, timeline 501 at point 2), buffer 0 promoted to back. -/
def s1W1 (m : Nat) : X11Window :=
  { use_explicit_sync := true, supports_native_fence_sync := true,
    supports_implicit_sync := false, force_prime := false,
    supports_prime := false, prime := false, caps_async := true,
    swap_interval := 1, width := 640, height := 480,
    pending_width := 640, pending_height := 480, modifier := 77,
    native_destroyed := false, needs_modifier_check := false,
    color_buffers :=
      [{ id := 1, status := .inUse, xpix := 901, last_present_serial := 1,
         timeline := { handle := 601, xid := 501, point := 2 } },
       newColorBuffer 0],
    prime_buffers := [],
    current_front := some 1, current_back := some 0, current_prime := none,
    last_present_serial := 1, last_complete_serial := 0,
    last_complete_msc := m }

/-- The request sent by the first S1 swap. -/
def s1Req1 (m : Nat) : PresentRequest :=
  { synced := true, serial := 1, xpix := 901, timelineXid := 501,
    acquirePoint := 1, releasePoint := 2, optAsync := false,
    optSuboptimal := true, optCopy := false, targetMSC := (m + 1) % M32 }

theorem s1_swap1_eq (m : Nat) :
    eplX11SwapBuffers (s1Window m) s1Env1
      = { ret := true, err := none, w := s1W1 m, requests := [s1Req1 m] } := by
  simp only [eplX11SwapBuffers, s1Window, s1Env1, sampleEnv, s1W1, s1Req1,
    CheckWindowDeleted, getBuffer, setBuffer, CreateSharedPixmap, SyncRendering,
    eplX11TimelineAttachSyncFD, waitPendingLoop, HandlePresentEvent,
    SendPresentPixmap, wsub32, intToU32, M32, M64, CheckReallocWindow,
    GetFreeBuffer, GetFreeBufferLoop, markReleased, findIdleBuffer,
    newColorBuffer, MAX_COLOR_BUFFERS, MAX_PRIME_BUFFERS, MAX_PENDING_FRAMES,
    List.find?]
  norm_num

/-- The window state after the second S1 swap: buffer 0 presented
(pixmap 902, timeline 502 at point 2), fresh buffer 2 allocated as the
new back. -/
def s1W2 (m : Nat) : X11Window :=
  { use_explicit_sync := true, supports_native_fence_sync := true,
    supports_implicit_sync := false, force_prime := false,
    supports_prime := false, prime := false, caps_async := true,
    swap_interval := 1, width := 640, height := 480,
    pending_width := 640, pending_height := 480, modifier := 77,
    native_destroyed := false, needs_modifier_check := false,
    color_buffers :=
      [newColorBuffer 2,
       { id := 1, status := .inUse, xpix := 901, last_present_serial := 1,
         timeline := { handle := 601, xid := 501, point := 2 } },
       { id := 0, status := .inUse, xpix := 902, last_present_serial := 2,
         timeline := { handle := 602, xid := 502, point := 2 } }],
    prime_buffers := [],
    current_front := some 0, current_back := some 2, current_prime := none,
    last_present_serial := 2, last_complete_serial := 0,
    last_complete_msc := m }

/-- The request sent by the second S1 swap. -/
def s1Req2 (m : Nat) : PresentRequest :=
  { synced := true, serial := 2, xpix := 902, timelineXid := 502,
    acquirePoint := 1, releasePoint := 2, optAsync := false,
    optSuboptimal := true, optCopy := false, targetMSC := (m + 2) % M32 }

theorem s1_swap2_eq (m : Nat) :
    eplX11SwapBuffers (s1W1 m) s1Env2
      = { ret := true, err := none, w := s1W2 m, requests := [s1Req2 m] } := by
  have hgb : getBuffer
      [{ id := 1, status := .inUse, xpix := 901, last_present_serial := 1,
         timeline := { handle := 601, xid := 501, point := 2 } },
       { id := 0, status := .idle, xpix := 0, last_present_serial := 0,
         timeline := { handle := 0, xid := 0, point := 0 } }] 0
      = some { id := 0, status := .idle, xpix := 0, last_present_serial := 0,
               timeline := { handle := 0, xid := 0, point := 0 } } := by decide
  have hgf : GetFreeBuffer
      [{ id := 1, status := .inUse, xpix := 901, last_present_serial := 1,
         timeline := { handle := 601, xid := 501, point := 2 } },
       { id := 0, status := .inUse, xpix := 902, last_present_serial := 2,
         timeline := { handle := 602, xid := 502, point := 2 } }]
      (some 0) 4 [] [] 2 true false false
      = (some { id := 2, status := .idle, xpix := 0, last_present_serial := 0,
                timeline := { handle := 0, xid := 0, point := 0 } },
         [{ id := 2, status := .idle, xpix := 0, last_present_serial := 0,
            timeline := { handle := 0, xid := 0, point := 0 } },
          { id := 1, status := .inUse, xpix := 901, last_present_serial := 1,
            timeline := { handle := 601, xid := 501, point := 2 } },
          { id := 0, status := .inUse, xpix := 902, last_present_serial := 2,
            timeline := { handle := 602, xid := 502, point := 2 } }]) := by decide
  simp only [eplX11SwapBuffers, s1W1, s1Env2, sampleEnv, s1W2, s1Req2,
    hgb, hgf,
    CheckWindowDeleted, CreateSharedPixmap, SyncRendering,
    eplX11TimelineAttachSyncFD, waitPendingLoop, SendPresentPixmap,
    setBuffer, wsub32, intToU32, M32, M64, CheckReallocWindow, newColorBuffer,
    MAX_COLOR_BUFFERS, MAX_PRIME_BUFFERS, MAX_PENDING_FRAMES]
  norm_num [hgb, hgf]

/-- The window state after the third S1 swap: buffer 2 presented
(pixmap 903, timeline 503 at point 2), fresh buffer 3 allocated as the
new back, and the CompleteNotify for serial 1 consumed (last complete
MSC m+1). -/
def s1W3 (m : Nat) : X11Window :=
  { use_explicit_sync := true, supports_native_fence_sync := true,
    supports_implicit_sync := false, force_prime := false,
    supports_prime := false, prime := false, caps_async := true,
    swap_interval := 1, width := 640, height := 480,
    pending_width := 640, pending_height := 480, modifier := 77,
    native_destroyed := false, needs_modifier_check := false,
    color_buffers :=
      [newColorBuffer 3,
       { id := 2, status := .inUse, xpix := 903, last_present_serial := 3,
         timeline := { handle := 603, xid := 503, point := 2 } },
       { id := 1, status := .inUse, xpix := 901, last_present_serial := 1,
         timeline := { handle := 601, xid := 501, point := 2 } },
       { id := 0, status := .inUse, xpix := 902, last_present_serial := 2,
         timeline := { handle := 602, xid := 502, point := 2 } }],
    prime_buffers := [],
    current_front := some 2, current_back := some 3, current_prime := none,
    last_present_serial := 3, last_complete_serial := 1,
    last_complete_msc := m + 1 }

/-- The request sent by the third S1 swap. -/
def s1Req3 (m : Nat) : PresentRequest :=
  { synced := true, serial := 3, xpix := 903, timelineXid := 503,
    acquirePoint := 1, releasePoint := 2, optAsync := false,
    optSuboptimal := true, optCopy := false, targetMSC := (m + 3) % M32 }

theorem s1_swap3_eq (m : Nat) :
    eplX11SwapBuffers (s1W2 m) (s1Env3 m)
      = { ret := true, err := none, w := s1W3 m, requests := [s1Req3 m] } := by
  have hgb : getBuffer
      [{ id := 2, status := .idle, xpix := 0, last_present_serial := 0,
         timeline := { handle := 0, xid := 0, point := 0 } },
       { id := 1, status := .inUse, xpix := 901, last_present_serial := 1,
         timeline := { handle := 601, xid := 501, point := 2 } },
       { id := 0, status := .inUse, xpix := 902, last_present_serial := 2,
         timeline := { handle := 602, xid := 502, point := 2 } }] 2
      = some { id := 2, status := .idle, xpix := 0, last_present_serial := 0,
               timeline := { handle := 0, xid := 0, point := 0 } } := by decide
  have hgf : GetFreeBuffer
      [{ id := 2, status := .inUse, xpix := 903, last_present_serial := 3,
         timeline := { handle := 603, xid := 503, point := 2 } },
       { id := 1, status := .inUse, xpix := 901, last_present_serial := 1,
         timeline := { handle := 601, xid := 501, point := 2 } },
       { id := 0, status := .inUse, xpix := 902, last_present_serial := 2,
         timeline := { handle := 602, xid := 502, point := 2 } }]
      (some 2) 4 [] [] 3 true false false
      = (some { id := 3, status := .idle, xpix := 0, last_present_serial := 0,
                timeline := { handle := 0, xid := 0, point := 0 } },
         [{ id := 3, status := .idle, xpix := 0, last_present_serial := 0,
            timeline := { handle := 0, xid := 0, point := 0 } },
          { id := 2, status := .inUse, xpix := 903, last_present_serial := 3,
            timeline := { handle := 603, xid := 503, point := 2 } },
          { id := 1, status := .inUse, xpix := 901, last_present_serial := 1,
            timeline := { handle := 601, xid := 501, point := 2 } },
          { id := 0, status := .inUse, xpix := 902, last_present_serial := 2,
            timeline := { handle := 602, xid := 502, point := 2 } }]) := by decide
  simp only [eplX11SwapBuffers, s1W2, s1Env3, sampleEnv, s1W3, s1Req3,
    hgb, hgf,
    CheckWindowDeleted, CreateSharedPixmap, SyncRendering,
    eplX11TimelineAttachSyncFD, waitPendingLoop, HandlePresentEvent,
    SendPresentPixmap, setBuffer, wsub32, intToU32, M32, M64,
    CheckReallocWindow, newColorBuffer,
    MAX_COLOR_BUFFERS, MAX_PRIME_BUFFERS, MAX_PENDING_FRAMES]
  norm_num [hgb, hgf]

theorem s1Results_eq (m : Nat) :
    s1Results m
      = ({ ret := true, err := none, w := s1W1 m, requests := [s1Req1 m] },
         { ret := true, err := none, w := s1W2 m, requests := [s1Req2 m] },
         { ret := true, err := none, w := s1W3 m, requests := [s1Req3 m] }) := by
  simp only [s1Results, s1_swap1_eq, s1_swap2_eq, s1_swap3_eq]

theorem s1Requests_eq (m : Nat) :
    s1Requests m = [s1Req1 m, s1Req2 m, s1Req3 m] := by
  simp only [s1Requests, s1Results_eq]
  rfl

/-- Counterexample to C9: in the S1 scenario the three PixmapSynced
requests carry release point 2 on each of the three buffers' timelines
(each presented buffer gets a fresh timeline whose point is first
advanced to 1 by attaching the acquire fence, so every first present of
a buffer carries acquire 1 and release 2), not release points
{1, 2, 3}. -/
theorem s1_release_points_counterexample :
    (s1Requests 0).map (fun q => q.releasePoint) = [2, 2, 2] ∧
    ¬((s1Requests 0).map (fun q => q.releasePoint) = [1, 2, 3]) := by
  rw [s1Requests_eq 0]
  constructor
  · decide
  · decide

/-- C9 as amended: in the S1 scenario (fresh 640x480 window under
explicit sync, three swaps with interval 1, and only the CompleteNotify
for serial 1 at MSC m+1 delivered, as required to pass the
pending-frames gate), all three swaps succeed; exactly one timeline is
created per presented buffer — the three requests carry the three
distinct fresh timeline XIDs 501, 502, 503, and the final pool holds
the three presented buffers with exactly those timelines plus one
never-presented buffer with no timeline; each of the three PixmapSynced
requests carries acquire point 1 and release point 2 on its own
buffer's timeline; and the target MSC values are {m+1, m+2, m+3} where
m is the last completed MSC before the sequence. -/
theorem s1_scenario_amended (m : Nat) (h : m + 3 < M32) :
    ((s1Results m).1.ret = true ∧ (s1Results m).2.1.ret = true ∧
     (s1Results m).2.2.ret = true) ∧
    (s1Requests m).map (fun q => q.synced) = [true, true, true] ∧
    (s1Requests m).map (fun q => q.serial) = [1, 2, 3] ∧
    (s1Requests m).map (fun q => q.timelineXid) = [501, 502, 503] ∧
    (s1Requests m).map (fun q => q.acquirePoint) = [1, 1, 1] ∧
    (s1Requests m).map (fun q => q.releasePoint) = [2, 2, 2] ∧
    (s1Requests m).map (fun q => q.targetMSC) = [m + 1, m + 2, m + 3] ∧
    (s1Results m).2.2.w.color_buffers.map (fun b => b.timeline.xid)
      = [0, 503, 501, 502] := by
  have hres := s1Results_eq m
  have hreq := s1Requests_eq m
  have hm1 : (m + 1) % M32 = m + 1 := Nat.mod_eq_of_lt (by omega)
  have hm2 : (m + 2) % M32 = m + 2 := Nat.mod_eq_of_lt (by omega)
  have hm3 : (m + 3) % M32 = m + 3 := Nat.mod_eq_of_lt (by omega)
  refine ⟨?_, ?_, ?_, ?_, ?_, ?_, ?_, ?_⟩
  · rw [hres]; exact ⟨rfl, rfl, rfl⟩
  · rw [hreq]; rfl
  · rw [hreq]; rfl
  · rw [hreq]; rfl
  · rw [hreq]; rfl
  · rw [hreq]; rfl
  · rw [hreq]
    show [(m + 1) % M32, (m + 2) % M32, (m + 3) % M32] = [m + 1, m + 2, m + 3]
    rw [hm1, hm2, hm3]
  · rw [hres]; rfl

/-- Witness for the amended C9 at m = 4000. -/
theorem s1_scenario_amended_witness :
    (s1Requests 4000).map (fun q => q.targetMSC) = [4001, 4002, 4003] :=
  (s1_scenario_amended 4000 (by decide)).2.2.2.2.2.2.1

end EglX11
